import Mathlib

/-!
Shallow embedding of `pylib/anki/rsbackend.py`: the client half of the
request/response bridge between the Python host and the Rust engine.

Protobuf messages are modelled as Lean structures.  A protobuf `oneof` is
modelled by a `value : Option String` field holding the result of
`WhichOneof("value")` (the name of the set variant, or `none` when no known
variant is set), together with one field per variant; reading a variant field
that is not the set one yields whatever the structure carries (in real
protobuf, the default value), exactly as Python attribute access does.
Functions that can only terminate by raising an assertion
(`assert_impossible_literal`) are modelled as returning `Option`, with `none`
standing for the fatal assertion; raising a classified backend exception is
modelled with `Except`.
-/

/-! ## Wire message model (anki.backend_pb2) -/

/-- A wire message carrying a single string field `info`
(`NetworkError`, `IOError`, `DBError`, `InvalidInput`, `AnkiWebMiscError`). -/
structure PbStringMsg where
  info : String

/-- Wire `TemplateParseError`: message text plus the question-side flag. -/
structure PbTemplateParse where
  info : String
  q_side : Bool

/-- Wire `BackendError`: a oneof over the fixed error kinds.
`value` is the result of `WhichOneof("value")`. -/
structure PbBackendError where
  value : Option String
  network_error : PbStringMsg
  io_error : PbStringMsg
  db_error : PbStringMsg
  template_parse : PbTemplateParse
  invalid_input : PbStringMsg
  ankiweb_misc_error : PbStringMsg

/-- Wire ordinal list carried by the `any` / `all` template-requirement
variants. -/
structure PbReqOrds where
  ords : List Nat

/-- Wire `TemplateRequirement`: oneof over `any`, `all`, `none`.
The `none` variant carries no data; reading `any` / `all` when unset yields
the (possibly default) stored value, as protobuf attribute access does. -/
structure PbTemplateRequirement where
  value : Option String
  any : PbReqOrds
  all : PbReqOrds

/-- Wire `TTSTag` payload. -/
structure PbTTS where
  field_text : String
  lang : String
  voices : List String
  other_args : List String
  speed : Float

/-- Wire `AVTag`: oneof over `sound_or_video` and `tts`. -/
structure PbAVTag where
  value : Option String
  sound_or_video : String
  tts : PbTTS

/-- Wire replacement descriptor inside a `RenderedTemplateNode`. -/
structure PbTemplateReplacement where
  field_name : String
  current_text : String
  filters : List String

/-- Wire `RenderedTemplateNode`: oneof over `text` and `replacement`. -/
structure PbRenderedTemplateNode where
  value : Option String
  text : String
  replacement : PbTemplateReplacement

/-- Wire `MediaSyncUploadedProgress`. -/
structure PbUploaded where
  files : Nat
  deletions : Nat

/-- Wire `MediaSyncProgress`: oneof over the four media-sync subkinds. -/
structure PbMediaSyncProgress where
  value : Option String
  downloaded_changes : Nat
  downloaded_files : Nat
  uploaded : PbUploaded
  removed_files : Nat

/-- Wire `Progress`: oneof with (currently) the single `media_sync` variant. -/
structure PbProgress where
  value : Option String
  media_sync : PbMediaSyncProgress

/-! ## Native host-side types -/

/-- Native exception hierarchy of `rsbackend.py`.  `StringError` subclasses
carry the message as `args[0]`; `TemplateError` additionally carries the
question-side flag as `args[1]`; `Interrupted` and `AnkiWebAuthFailed` carry
no arguments. -/
inductive NativeError where
  | Interrupted
  | NetworkError (info : String)
  | IOError (info : String)
  | DBError (info : String)
  | TemplateError (info : String) (q_side : Bool)
  | StringError (info : String)
  | AnkiWebAuthFailed
  | AnkiWebError (info : String)
deriving DecidableEq

/-- The message text of a native error (`StringError.__str__`, i.e.
`args[0]`); `none` for the argument-less kinds. -/
def NativeError.msg : NativeError → Option String
  | .Interrupted => none
  | .NetworkError info => some info
  | .IOError info => some info
  | .DBError info => some info
  | .TemplateError info _ => some info
  | .StringError info => some info
  | .AnkiWebAuthFailed => none
  | .AnkiWebError info => some info

/-- The `TemplateError.q_side` accessor (`args[1]`); `none` on every other
kind, which has no such accessor. -/
def NativeError.q_side : NativeError → Option Bool
  | .TemplateError _ q => some q
  | _ => none

/-- Native `AVTag` union (`anki.sound`): `SoundOrVideoTag` or `TTSTag`. -/
inductive AVTag where
  | SoundOrVideoTag (filename : String)
  | TTSTag (field_text : String) (lang : String) (voices : List String)
      (other_args : List String) (speed : Float)

/-- Native `TemplateReplacement` dataclass. -/
structure TemplateReplacement where
  field_name : String
  current_text : String
  filters : List String
deriving DecidableEq

/-- `TemplateReplacementList = List[Union[str, TemplateReplacement]]`. -/
abbrev TemplateReplacementList := List (String ⊕ TemplateReplacement)

/-- Legacy template requirement: `(index, kind, ordinals)` with kind one of
the strings `"any"`, `"all"`, `"none"` (`AllTemplateReqs` element). -/
abbrev LegacyReq := Nat × String × List Nat

/-- `AllTemplateReqs` from `anki.models`. -/
abbrev AllTemplateReqs := List LegacyReq

/-- Native media-sync progress union (the four dataclasses). -/
inductive MediaSyncProgress where
  | DownloadedChanges (changes : Nat)
  | DownloadedFiles (files : Nat)
  | Uploaded (files : Nat) (deletions : Nat)
  | RemovedFiles (files : Nat)
deriving DecidableEq

/-- `ProgressKind` enum (single member). -/
inductive ProgressKind where
  | MediaSyncProgress
deriving DecidableEq

/-- Native `Progress` dataclass. -/
structure Progress where
  kind : ProgressKind
  val : MediaSyncProgress
deriving DecidableEq

/-! ## Wire schema adapters (decoding functions) -/

/-- Python `sorted` on a list of naturals: a stable comparison sort; on a
total order over `Nat` its result is the unique `≤`-sorted permutation, so
insertion sort is an exact model. -/
def pysorted (l : List Nat) : List Nat :=
  List.insertionSort (· ≤ ·) l

/-- `proto_exception_to_native`: classify a wire `BackendError` into a native
error.  `none` models the `assert_impossible_literal` fatal assertion on an
unrecognized discriminant. -/
def proto_exception_to_native (err : PbBackendError) : Option NativeError :=
  if err.value = some "interrupted" then
    some .Interrupted
  else if err.value = some "network_error" then
    some (.NetworkError err.network_error.info)
  else if err.value = some "io_error" then
    some (.IOError err.io_error.info)
  else if err.value = some "db_error" then
    some (.DBError err.db_error.info)
  else if err.value = some "template_parse" then
    some (.TemplateError err.template_parse.info err.template_parse.q_side)
  else if err.value = some "invalid_input" then
    some (.StringError err.invalid_input.info)
  else if err.value = some "ankiweb_auth_failed" then
    some .AnkiWebAuthFailed
  else if err.value = some "ankiweb_misc_error" then
    some (.AnkiWebError err.ankiweb_misc_error.info)
  else
    none

/-- The eight error discriminants `proto_exception_to_native` recognizes. -/
def knownErrorKinds : List String :=
  ["interrupted", "network_error", "io_error", "db_error",
   "template_parse", "invalid_input", "ankiweb_auth_failed",
   "ankiweb_misc_error"]

/-- Decode one enumerated wire template requirement, as the loop body of
`proto_template_reqs_to_legacy` does: `any` / `all` sort their ordinals, any
other discriminant falls into the `else` branch producing `("none", [])`. -/
def template_req_to_legacy (idx : Nat) (req : PbTemplateRequirement) :
    LegacyReq :=
  if req.value = some "any" then
    (idx, "any", pysorted req.any.ords)
  else if req.value = some "all" then
    (idx, "all", pysorted req.all.ords)
  else
    (idx, "none", [])

/-- `proto_template_reqs_to_legacy`: decode the wire requirement list,
enumerating with indices from 0. -/
def proto_template_reqs_to_legacy (reqs : List PbTemplateRequirement) :
    AllTemplateReqs :=
  reqs.enum.map (fun p => template_req_to_legacy p.1 p.2)

/-- `av_tag_to_native`: decode a wire `AVTag`.  Total: every discriminant
other than `sound_or_video` takes the `else` branch and yields a `TTSTag`. -/
def av_tag_to_native (tag : PbAVTag) : AVTag :=
  if tag.value = some "sound_or_video" then
    .SoundOrVideoTag tag.sound_or_video
  else
    .TTSTag tag.tts.field_text tag.tts.lang tag.tts.voices
      tag.tts.other_args tag.tts.speed

/-- `proto_replacement_list_to_native`: decode a rendered-template node list.
Total: every discriminant other than `text` takes the `else` branch and
yields a replacement descriptor. -/
def proto_replacement_list_to_native (nodes : List PbRenderedTemplateNode) :
    TemplateReplacementList :=
  nodes.map (fun node =>
    if node.value = some "text" then
      .inl node.text
    else
      .inr ⟨node.replacement.field_name, node.replacement.current_text,
        node.replacement.filters⟩)

/-- The four media-sync progress discriminants
`proto_progress_to_native` recognizes. -/
def knownMediaSyncKinds : List String :=
  ["downloaded_changes", "downloaded_files", "uploaded", "removed_files"]

/-- `proto_progress_to_native`: decode a wire `Progress`.  `none` models the
`assert_impossible_literal` fatal assertion, reached both on an unrecognized
inner media-sync discriminant and on an outer discriminant other than
`media_sync`. -/
def proto_progress_to_native (progress : PbProgress) : Option Progress :=
  if progress.value = some "media_sync" then
    if progress.media_sync.value = some "downloaded_changes" then
      some ⟨.MediaSyncProgress,
        .DownloadedChanges progress.media_sync.downloaded_changes⟩
    else if progress.media_sync.value = some "downloaded_files" then
      some ⟨.MediaSyncProgress,
        .DownloadedFiles progress.media_sync.downloaded_files⟩
    else if progress.media_sync.value = some "uploaded" then
      some ⟨.MediaSyncProgress,
        .Uploaded progress.media_sync.uploaded.files
          progress.media_sync.uploaded.deletions⟩
    else if progress.media_sync.value = some "removed_files" then
      some ⟨.MediaSyncProgress,
        .RemovedFiles progress.media_sync.removed_files⟩
    else
      none
  else
    none

/-! ## Command dispatcher and backend handle -/

/-- Wire `TemplateRequirementsIn` payload. -/
structure PbTemplateRequirementsIn where
  template_front : List String
  field_names_to_ordinals : List (String × Nat)

/-- Wire `SchedTimingTodayIn` payload. -/
structure PbSchedTimingTodayIn where
  created_secs : Int
  created_mins_west : Int
  now_secs : Int
  now_mins_west : Int
  rollover_hour : Int

/-- Wire `RenderCardIn` payload. -/
structure PbRenderCardIn where
  question_template : String
  answer_template : String
  fields : List (String × String)
  card_ordinal : Nat

/-- Wire `ExtractAVTagsIn` payload. -/
structure PbExtractAVTagsIn where
  text : String
  question_side : Bool

/-- Wire `AddFileToMediaFolderIn` payload. -/
structure PbAddFileToMediaFolderIn where
  desired_name : String
  data : List Nat

/-- Wire `SyncMediaIn` payload. -/
structure PbSyncMediaIn where
  hkey : String
  media_folder : String
  media_db : String
  endpoint : String

/-- Wire `BackendInput` command envelope.  The client always constructs it
with exactly one variant set, so an inductive union is a faithful model of
the encoding direction. -/
inductive PbBackendInput where
  | template_requirements (v : PbTemplateRequirementsIn)
  | sched_timing_today (v : PbSchedTimingTodayIn)
  | render_card (v : PbRenderCardIn)
  | local_minutes_west (v : Int)
  | strip_av_tags (v : String)
  | extract_av_tags (v : PbExtractAVTagsIn)
  | expand_clozes_to_reveal_latex (v : String)
  | add_file_to_media_folder (v : PbAddFileToMediaFolderIn)
  | sync_media (v : PbSyncMediaIn)

/-- Wire `SchedTimingTodayOut` payload (opaque passthrough for this layer). -/
structure PbSchedTimingTodayOut where
  days_elapsed : Nat
  next_day_at : Int
deriving DecidableEq

/-- Wire `TemplateRequirementsOut` payload. -/
structure PbTemplateRequirementsOut where
  requirements : List PbTemplateRequirement

/-- Wire `RenderCardOut` payload. -/
structure PbRenderCardOut where
  question_nodes : List PbRenderedTemplateNode
  answer_nodes : List PbRenderedTemplateNode

/-- Wire `ExtractAVTagsOut` payload. -/
structure PbExtractAVTagsOut where
  text : String
  av_tags : List PbAVTag

/-- Wire `BackendOutput` response envelope as decoded from bytes: the
discriminant reported by `WhichOneof("value")` plus every variant field,
readable regardless of which variant is set (unset fields hold protobuf
defaults on a real decoded message). -/
structure PbBackendOutput where
  value : Option String
  error : PbBackendError
  template_requirements : PbTemplateRequirementsOut
  sched_timing_today : PbSchedTimingTodayOut
  render_card : PbRenderCardOut
  local_minutes_west : Int
  strip_av_tags : String
  extract_av_tags : PbExtractAVTagsOut
  expand_clozes_to_reveal_latex : String
  add_file_to_media_folder : String

/-- The opaque engine call `ankirspy` backend handle: serialization is
assumed to round-trip (spec §6), so the boundary is modelled at message
level, as a function of the input envelope and the release-GIL flag. -/
abbrev EngineBackend := PbBackendInput → Bool → PbBackendOutput

/-- One invocation of the opaque engine call, as observed at the call
boundary: which envelope was sent and with which release-GIL flag. -/
structure EngineCall where
  input : PbBackendInput
  release_gil : Bool

/-- `RustBackend._run_command`: serialize the envelope, perform the opaque
call with the given release-GIL flag, decode the response envelope; if its
discriminant is `error`, raise the classified native error (`Except.error`;
`none` when classification hits the fatal assertion), otherwise return the
decoded output.  The `EngineCall` component records the call made on the
engine boundary. -/
def run_command (backend : EngineBackend) (input : PbBackendInput)
    (release_gil : Bool) :
    EngineCall × Option (Except NativeError PbBackendOutput) :=
  let output := backend input release_gil
  (⟨input, release_gil⟩,
    if output.value = some "error" then
      match proto_exception_to_native output.error with
      | some e => some (Except.error e)
      | none => none
    else
      some (Except.ok output))

namespace RustBackend

/-- `RustBackend.template_requirements`. -/
def template_requirements (backend : EngineBackend)
    (template_fronts : List String) (field_map : List (String × Nat)) :
    EngineCall × Option (Except NativeError AllTemplateReqs) :=
  let input := PbBackendInput.template_requirements
    ⟨template_fronts, field_map⟩
  let r := run_command backend input false
  (r.1, r.2.map (Except.map (fun out =>
    proto_template_reqs_to_legacy out.template_requirements.requirements)))

/-- `RustBackend.sched_timing_today`. -/
def sched_timing_today (backend : EngineBackend)
    (created_secs created_mins_west now_secs now_mins_west rollover : Int) :
    EngineCall × Option (Except NativeError PbSchedTimingTodayOut) :=
  let input := PbBackendInput.sched_timing_today
    ⟨created_secs, created_mins_west, now_secs, now_mins_west, rollover⟩
  let r := run_command backend input false
  (r.1, r.2.map (Except.map (fun out => out.sched_timing_today)))

/-- `RustBackend.render_card`. -/
def render_card (backend : EngineBackend) (qfmt afmt : String)
    (fields : List (String × String)) (card_ord : Nat) :
    EngineCall ×
      Option (Except NativeError
        (TemplateReplacementList × TemplateReplacementList)) :=
  let input := PbBackendInput.render_card ⟨qfmt, afmt, fields, card_ord⟩
  let r := run_command backend input false
  (r.1, r.2.map (Except.map (fun out =>
    (proto_replacement_list_to_native out.render_card.question_nodes,
     proto_replacement_list_to_native out.render_card.answer_nodes))))

/-- `RustBackend.local_minutes_west`. -/
def local_minutes_west (backend : EngineBackend) (stamp : Int) :
    EngineCall × Option (Except NativeError Int) :=
  let input := PbBackendInput.local_minutes_west stamp
  let r := run_command backend input false
  (r.1, r.2.map (Except.map (fun out => out.local_minutes_west)))

/-- `RustBackend.strip_av_tags`. -/
def strip_av_tags (backend : EngineBackend) (text : String) :
    EngineCall × Option (Except NativeError String) :=
  let input := PbBackendInput.strip_av_tags text
  let r := run_command backend input false
  (r.1, r.2.map (Except.map (fun out => out.strip_av_tags)))

/-- `RustBackend.extract_av_tags`. -/
def extract_av_tags (backend : EngineBackend) (text : String)
    (question_side : Bool) :
    EngineCall × Option (Except NativeError (String × List AVTag)) :=
  let input := PbBackendInput.extract_av_tags ⟨text, question_side⟩
  let r := run_command backend input false
  (r.1, r.2.map (Except.map (fun out =>
    (out.extract_av_tags.text,
     out.extract_av_tags.av_tags.map av_tag_to_native))))

/-- `RustBackend.expand_clozes_to_reveal_latex`. -/
def expand_clozes_to_reveal_latex (backend : EngineBackend) (text : String) :
    EngineCall × Option (Except NativeError String) :=
  let input := PbBackendInput.expand_clozes_to_reveal_latex text
  let r := run_command backend input false
  (r.1, r.2.map (Except.map (fun out => out.expand_clozes_to_reveal_latex)))

/-- `RustBackend.add_file_to_media_folder`. -/
def add_file_to_media_folder (backend : EngineBackend)
    (desired_name : String) (data : List Nat) :
    EngineCall × Option (Except NativeError String) :=
  let input := PbBackendInput.add_file_to_media_folder ⟨desired_name, data⟩
  let r := run_command backend input false
  (r.1, r.2.map (Except.map (fun out => out.add_file_to_media_folder)))

/-- `RustBackend.sync_media`: the only method passing `release_gil=True`;
its Python return type is `None`. -/
def sync_media (backend : EngineBackend)
    (hkey media_folder media_db endpoint : String) :
    EngineCall × Option (Except NativeError Unit) :=
  let input := PbBackendInput.sync_media
    ⟨hkey, media_folder, media_db, endpoint⟩
  let r := run_command backend input true
  (r.1, r.2.map (Except.map (fun _ => ())))

end RustBackend

/-! ## Progress channel -/

namespace hooks

/-- Modelled from the spec: `anki.hooks.rust_progress_callback` is
repository code not under `src/`.  Per spec §4.3 and §6, the progress
channel invokes the single host-registered observer with the decoded event
and "the boolean returned by the observer is returned unchanged to the
engine"; the first argument is the default boolean (continue) passed by the
caller. -/
def rust_progress_callback (observer : Progress → Bool) (_proceed : Bool)
    (event : Progress) : Bool :=
  observer event

end hooks

/-- `RustBackend._on_progress`: decode the progress bytes (modelled at
message level) and forward the event through the hook to the registered
observer, returning the observer's boolean to the engine; `none` models the
fatal assertion on an undecodable event. -/
def on_progress (observer : Progress → Bool) (progress : PbProgress) :
    Option Bool :=
  (proto_progress_to_native progress).map
    (fun native_progress =>
      hooks.rust_progress_callback observer true native_progress)

/-! ## Concrete wire values used by witnesses and counterexamples -/

/-- Empty single-string wire message. -/
def pbStringMsg0 : PbStringMsg := ⟨""⟩

/-- A `BackendError` with no variant set and default payloads. -/
def pbBackendError0 : PbBackendError :=
  ⟨none, pbStringMsg0, pbStringMsg0, pbStringMsg0, ⟨"", false⟩,
    pbStringMsg0, pbStringMsg0⟩

/-- A `BackendError` carrying the spec example
`{template_parse: {info: "bad tag", q_side: true}}`. -/
def pbErrTemplateParse : PbBackendError :=
  ⟨some "template_parse", pbStringMsg0, pbStringMsg0, pbStringMsg0,
    ⟨"bad tag", true⟩, pbStringMsg0, pbStringMsg0⟩

/-- A `BackendError` whose discriminant names a variant unknown to the
classifier. -/
def pbErrUnknown : PbBackendError :=
  ⟨some "future_error_kind", pbStringMsg0, pbStringMsg0, pbStringMsg0,
    ⟨"", false⟩, pbStringMsg0, pbStringMsg0⟩

/-- Wire progress encoding `{media_sync: {uploaded: {files: 3, deletions: 1}}}`
from the spec example. -/
def pbProgressUploaded31 : PbProgress :=
  ⟨some "media_sync", ⟨some "uploaded", 0, 0, ⟨3, 1⟩, 0⟩⟩

/-! ## Claim theorems -/

/-- Claim C3: for every wire error whose discriminant is one of the eight
fixed kinds, the classifier returns a native error of the matching kind whose
message (the `args[0]` / `__str__` text) equals the wire message verbatim;
for `template_parse` the question-side boolean is exposed via the `q_side`
accessor rather than folded into the message; `ankiweb_auth_failed` yields
the argument-less `AnkiWebAuthFailed`. -/
theorem c3_classifier_matches_kind_and_message (err : PbBackendError) :
    (err.value = some "interrupted" →
      proto_exception_to_native err = some NativeError.Interrupted
      ∧ NativeError.Interrupted.msg = none)
  ∧ (err.value = some "network_error" →
      proto_exception_to_native err
        = some (NativeError.NetworkError err.network_error.info)
      ∧ (NativeError.NetworkError err.network_error.info).msg
        = some err.network_error.info)
  ∧ (err.value = some "io_error" →
      proto_exception_to_native err
        = some (NativeError.IOError err.io_error.info)
      ∧ (NativeError.IOError err.io_error.info).msg
        = some err.io_error.info)
  ∧ (err.value = some "db_error" →
      proto_exception_to_native err
        = some (NativeError.DBError err.db_error.info)
      ∧ (NativeError.DBError err.db_error.info).msg
        = some err.db_error.info)
  ∧ (err.value = some "template_parse" →
      proto_exception_to_native err
        = some (NativeError.TemplateError err.template_parse.info
            err.template_parse.q_side)
      ∧ (NativeError.TemplateError err.template_parse.info
          err.template_parse.q_side).msg = some err.template_parse.info
      ∧ (NativeError.TemplateError err.template_parse.info
          err.template_parse.q_side).q_side = some err.template_parse.q_side)
  ∧ (err.value = some "invalid_input" →
      proto_exception_to_native err
        = some (NativeError.StringError err.invalid_input.info)
      ∧ (NativeError.StringError err.invalid_input.info).msg
        = some err.invalid_input.info)
  ∧ (err.value = some "ankiweb_auth_failed" →
      proto_exception_to_native err = some NativeError.AnkiWebAuthFailed
      ∧ NativeError.AnkiWebAuthFailed.msg = none)
  ∧ (err.value = some "ankiweb_misc_error" →
      proto_exception_to_native err
        = some (NativeError.AnkiWebError err.ankiweb_misc_error.info)
      ∧ (NativeError.AnkiWebError err.ankiweb_misc_error.info).msg
        = some err.ankiweb_misc_error.info) := by
  refine ⟨?_, ?_, ?_, ?_, ?_, ?_, ?_, ?_⟩ <;> intro h <;>
    simp [proto_exception_to_native, h, NativeError.msg, NativeError.q_side]

/-- Witness for C3 at the spec's example error and at the argument-less
authentication failure. -/
theorem c3_witness :
    (proto_exception_to_native pbErrTemplateParse
        = some (NativeError.TemplateError "bad tag" true)
      ∧ (NativeError.TemplateError "bad tag" true).msg = some "bad tag"
      ∧ (NativeError.TemplateError "bad tag" true).q_side = some true)
  ∧ (proto_exception_to_native
        ⟨some "ankiweb_auth_failed", pbStringMsg0, pbStringMsg0, pbStringMsg0,
          ⟨"", false⟩, pbStringMsg0, pbStringMsg0⟩
        = some NativeError.AnkiWebAuthFailed
      ∧ NativeError.AnkiWebAuthFailed.msg = none) :=
  ⟨(c3_classifier_matches_kind_and_message pbErrTemplateParse).2.2.2.2.1 rfl,
   (c3_classifier_matches_kind_and_message _).2.2.2.2.2.2.1 rfl⟩

/-- Claim C7: a wire error whose discriminant is not one of the eight fixed
kinds makes the classifier hit the fatal assertion
(`assert_impossible_literal`, modelled as `none`) instead of returning any
native error value. -/
theorem c7_unknown_error_kind_is_fatal (err : PbBackendError)
    (h : ∀ k ∈ knownErrorKinds, err.value ≠ some k) :
    proto_exception_to_native err = none := by
  have h1 := h "interrupted" (by simp [knownErrorKinds])
  have h2 := h "network_error" (by simp [knownErrorKinds])
  have h3 := h "io_error" (by simp [knownErrorKinds])
  have h4 := h "db_error" (by simp [knownErrorKinds])
  have h5 := h "template_parse" (by simp [knownErrorKinds])
  have h6 := h "invalid_input" (by simp [knownErrorKinds])
  have h7 := h "ankiweb_auth_failed" (by simp [knownErrorKinds])
  have h8 := h "ankiweb_misc_error" (by simp [knownErrorKinds])
  simp [proto_exception_to_native, h1, h2, h3, h4, h5, h6, h7, h8]

/-- Witness for C7 at an unrecognized discriminant. -/
theorem c7_witness :
    (∀ k ∈ knownErrorKinds, pbErrUnknown.value ≠ some k)
    ∧ proto_exception_to_native pbErrUnknown = none :=
  ⟨by decide, c7_unknown_error_kind_is_fatal pbErrUnknown (by decide)⟩

/-- Claim C6: each of the four media-sync progress subkinds decodes to the
matching tagged native value with all numeric fields preserved, and a
progress message (or media-sync submessage) with any other discriminant is a
fatal internal-contract violation (the assertion, modelled as `none`). -/
theorem c6_progress_decoding (progress : PbProgress) :
    (progress.value = some "media_sync" →
      (progress.media_sync.value = some "downloaded_changes" →
        proto_progress_to_native progress
          = some ⟨.MediaSyncProgress,
              .DownloadedChanges progress.media_sync.downloaded_changes⟩)
      ∧ (progress.media_sync.value = some "downloaded_files" →
        proto_progress_to_native progress
          = some ⟨.MediaSyncProgress,
              .DownloadedFiles progress.media_sync.downloaded_files⟩)
      ∧ (progress.media_sync.value = some "uploaded" →
        proto_progress_to_native progress
          = some ⟨.MediaSyncProgress,
              .Uploaded progress.media_sync.uploaded.files
                progress.media_sync.uploaded.deletions⟩)
      ∧ (progress.media_sync.value = some "removed_files" →
        proto_progress_to_native progress
          = some ⟨.MediaSyncProgress,
              .RemovedFiles progress.media_sync.removed_files⟩)
      ∧ ((∀ k ∈ knownMediaSyncKinds, progress.media_sync.value ≠ some k) →
        proto_progress_to_native progress = none))
  ∧ (progress.value ≠ some "media_sync" →
      proto_progress_to_native progress = none) := by
  constructor
  · intro houter
    refine ⟨?_, ?_, ?_, ?_, ?_⟩ <;> intro h
    · simp [proto_progress_to_native, houter, h]
    · simp [proto_progress_to_native, houter, h]
    · simp [proto_progress_to_native, houter, h]
    · simp [proto_progress_to_native, houter, h]
    · have h1 := h "downloaded_changes" (by simp [knownMediaSyncKinds])
      have h2 := h "downloaded_files" (by simp [knownMediaSyncKinds])
      have h3 := h "uploaded" (by simp [knownMediaSyncKinds])
      have h4 := h "removed_files" (by simp [knownMediaSyncKinds])
      simp [proto_progress_to_native, houter, h1, h2, h3, h4]
  · intro houter
    simp [proto_progress_to_native, houter]

/-- Witness for C6 at the spec example
`{media_sync: {uploaded: {files: 3, deletions: 1}}}` and at an unrecognized
outer discriminant. -/
theorem c6_witness :
    proto_progress_to_native pbProgressUploaded31
      = some ⟨.MediaSyncProgress, .Uploaded 3 1⟩
  ∧ proto_progress_to_native
      ⟨some "full_sync", ⟨none, 0, 0, ⟨0, 0⟩, 0⟩⟩ = none :=
  ⟨((c6_progress_decoding pbProgressUploaded31).1 rfl).2.2.1 rfl,
   (c6_progress_decoding _).2 (by decide)⟩

/-- Claim C8: for every progress-bytes invocation and every registered
observer, the boolean the callback returns to the engine equals the boolean
the observer returned for the decoded event, unchanged. -/
theorem c8_observer_boolean_unchanged (observer : Progress → Bool)
    (p : PbProgress) (e : Progress)
    (h : proto_progress_to_native p = some e) :
    on_progress observer p = some (observer e) := by
  simp [on_progress, h, hooks.rust_progress_callback]

/-- Witness for C8: an observer requesting interruption (`false`) has its
boolean forwarded unchanged for a concrete decoded event. -/
theorem c8_witness :
    proto_progress_to_native pbProgressUploaded31
      = some ⟨.MediaSyncProgress, .Uploaded 3 1⟩
  ∧ on_progress (fun _ => false) pbProgressUploaded31 = some false :=
  ⟨rfl, c8_observer_boolean_unchanged (fun _ => false) pbProgressUploaded31
    ⟨.MediaSyncProgress, .Uploaded 3 1⟩ rfl⟩

/-- Claim C5: the dispatcher raises the classified native error exactly when
the response envelope's discriminant is the error variant (raising is
`some (Except.error _)`; when classification itself hits the fatal
assertion the whole call is fatal, `none`); on any other discriminant it
returns the decoded output, and no classified error is ever raised on that
success path. -/
theorem c5_dispatcher_raises_iff_error (backend : EngineBackend)
    (input : PbBackendInput) (release_gil : Bool) :
    ((backend input release_gil).value = some "error" →
      (run_command backend input release_gil).2
        = Option.map Except.error
            (proto_exception_to_native (backend input release_gil).error))
  ∧ ((backend input release_gil).value ≠ some "error" →
      (run_command backend input release_gil).2
        = some (Except.ok (backend input release_gil)))
  ∧ (∀ e : NativeError,
      (run_command backend input release_gil).2 = some (Except.error e) →
      (backend input release_gil).value = some "error") := by
  refine ⟨?_, ?_, ?_⟩
  · intro h
    simp only [run_command, h, if_pos]
    cases proto_exception_to_native (backend input release_gil).error <;> rfl
  · intro h
    simp [run_command, h]
  · intro e he
    by_contra hne
    simp [run_command, hne] at he

/-- An engine stub answering every command with an `interrupted` error. -/
def errBackend : EngineBackend := fun _ _ =>
  ⟨some "error",
    ⟨some "interrupted", pbStringMsg0, pbStringMsg0, pbStringMsg0,
      ⟨"", false⟩, pbStringMsg0, pbStringMsg0⟩,
    ⟨[]⟩, ⟨0, 0⟩, ⟨[], []⟩, 0, "", ⟨"", []⟩, "", ""⟩

/-- An engine stub answering every command with a `strip_av_tags` success
envelope. -/
def okBackend : EngineBackend := fun _ _ =>
  ⟨some "strip_av_tags", pbBackendError0,
    ⟨[]⟩, ⟨0, 0⟩, ⟨[], []⟩, 0, "stripped", ⟨"", []⟩, "", ""⟩

/-- Witness for C5: on an error envelope the dispatcher raises the
classified error, on a success envelope it returns the decoded output. -/
theorem c5_witness :
    (run_command errBackend (PbBackendInput.strip_av_tags "x") false).2
      = Option.map Except.error
          (proto_exception_to_native
            (errBackend (PbBackendInput.strip_av_tags "x") false).error)
  ∧ (run_command okBackend (PbBackendInput.strip_av_tags "x") false).2
      = some (Except.ok (okBackend (PbBackendInput.strip_av_tags "x") false)) :=
  ⟨(c5_dispatcher_raises_iff_error errBackend
      (PbBackendInput.strip_av_tags "x") false).1 rfl,
   (c5_dispatcher_raises_iff_error okBackend
      (PbBackendInput.strip_av_tags "x") false).2.1 (by decide)⟩

/-- Claim C9: `sync_media` is the only command method invoking the opaque
engine call with the release-GIL flag true; every other command method
invokes it with the flag false. -/
theorem c9_only_sync_media_releases_gil (backend : EngineBackend) :
    (∀ hkey media_folder media_db endpoint,
      (RustBackend.sync_media backend
        hkey media_folder media_db endpoint).1.release_gil = true)
  ∧ (∀ fronts fmap,
      (RustBackend.template_requirements backend
        fronts fmap).1.release_gil = false)
  ∧ (∀ a b c d e,
      (RustBackend.sched_timing_today backend a b c d e).1.release_gil
        = false)
  ∧ (∀ qfmt afmt fields card_ord,
      (RustBackend.render_card backend
        qfmt afmt fields card_ord).1.release_gil = false)
  ∧ (∀ stamp,
      (RustBackend.local_minutes_west backend stamp).1.release_gil = false)
  ∧ (∀ text,
      (RustBackend.strip_av_tags backend text).1.release_gil = false)
  ∧ (∀ text question_side,
      (RustBackend.extract_av_tags backend
        text question_side).1.release_gil = false)
  ∧ (∀ text,
      (RustBackend.expand_clozes_to_reveal_latex backend
        text).1.release_gil = false)
  ∧ (∀ desired_name data,
      (RustBackend.add_file_to_media_folder backend
        desired_name data).1.release_gil = false) :=
  ⟨fun _ _ _ _ => rfl, fun _ _ => rfl, fun _ _ _ _ _ => rfl,
   fun _ _ _ _ => rfl, fun _ => rfl, fun _ => rfl, fun _ _ => rfl,
   fun _ => rfl, fun _ _ => rfl⟩

/-- First component of one decoded requirement is the enumeration index. -/
theorem template_req_to_legacy_fst (idx : Nat)
    (req : PbTemplateRequirement) :
    (template_req_to_legacy idx req).1 = idx := by
  unfold template_req_to_legacy
  split_ifs <;> rfl

/-- Claim C10: template-requirement decoding preserves the list length and
the i-th decoded element's index component equals i. -/
theorem c10_indices_enumerate_positions (reqs : List PbTemplateRequirement) :
    (proto_template_reqs_to_legacy reqs).length = reqs.length
  ∧ ∀ (i : Nat) (h : i < (proto_template_reqs_to_legacy reqs).length),
      ((proto_template_reqs_to_legacy reqs).get ⟨i, h⟩).1 = i := by
  constructor
  · simp [proto_template_reqs_to_legacy]
  · intro i h
    have hi : i < reqs.length := by
      simpa [proto_template_reqs_to_legacy] using h
    simp [proto_template_reqs_to_legacy, List.getElem_map,
      List.getElem_enum, template_req_to_legacy_fst]

/-- A `none`-kind wire requirement. -/
def pbReqNone : PbTemplateRequirement := ⟨some "none", ⟨[]⟩, ⟨[]⟩⟩

/-- Witness for C10 on a two-element list. -/
theorem c10_witness :
    (proto_template_reqs_to_legacy [pbReqNone, pbReqNone]).length = 2
  ∧ ((proto_template_reqs_to_legacy [pbReqNone, pbReqNone]).get
      ⟨1, by decide⟩).1 = 1 :=
  ⟨(c10_indices_enumerate_positions [pbReqNone, pbReqNone]).1,
   (c10_indices_enumerate_positions [pbReqNone, pbReqNone]).2 1 (by decide)⟩

/-- A wire `AVTag` whose discriminant names a variant unknown to the
adapter. -/
def pbAVTagUnknown : PbAVTag := ⟨some "future_tag_kind", "", ⟨"", "", [], [], 3.5⟩⟩

/-- Counterexample to C1 as stated: AV-tag decoding of a wire union with an
unknown discriminant does not fail; it silently returns the known `TTSTag`
variant built from the `tts` field. -/
theorem c1_counterexample :
    av_tag_to_native pbAVTagUnknown = AVTag.TTSTag "" "" [] [] 3.5 := rfl

/-- Claim C1 (amended): error decoding and progress decoding fail with the
fatal assertion on an unknown discriminant, but the other adapters are total
and silently default: AV-tag decoding yields the `TTSTag` variant,
rendered-node decoding yields the replacement variant, and
template-requirement decoding yields the `none` kind. -/
theorem c1_amended_unknown_discriminants :
    (∀ err : PbBackendError,
      (∀ k ∈ knownErrorKinds, err.value ≠ some k) →
      proto_exception_to_native err = none)
  ∧ (∀ p : PbProgress, p.value ≠ some "media_sync" →
      proto_progress_to_native p = none)
  ∧ (∀ p : PbProgress,
      (∀ k ∈ knownMediaSyncKinds, p.media_sync.value ≠ some k) →
      proto_progress_to_native p = none)
  ∧ (∀ tag : PbAVTag, tag.value ≠ some "sound_or_video" →
      av_tag_to_native tag
        = AVTag.TTSTag tag.tts.field_text tag.tts.lang tag.tts.voices
            tag.tts.other_args tag.tts.speed)
  ∧ (∀ node : PbRenderedTemplateNode, node.value ≠ some "text" →
      proto_replacement_list_to_native [node]
        = [Sum.inr ⟨node.replacement.field_name,
            node.replacement.current_text, node.replacement.filters⟩])
  ∧ (∀ (idx : Nat) (req : PbTemplateRequirement),
      req.value ≠ some "any" → req.value ≠ some "all" →
      template_req_to_legacy idx req = (idx, "none", [])) := by
  refine ⟨?_, ?_, ?_, ?_, ?_, ?_⟩
  · intro err h
    have h1 := h "interrupted" (by simp [knownErrorKinds])
    have h2 := h "network_error" (by simp [knownErrorKinds])
    have h3 := h "io_error" (by simp [knownErrorKinds])
    have h4 := h "db_error" (by simp [knownErrorKinds])
    have h5 := h "template_parse" (by simp [knownErrorKinds])
    have h6 := h "invalid_input" (by simp [knownErrorKinds])
    have h7 := h "ankiweb_auth_failed" (by simp [knownErrorKinds])
    have h8 := h "ankiweb_misc_error" (by simp [knownErrorKinds])
    simp [proto_exception_to_native, h1, h2, h3, h4, h5, h6, h7, h8]
  · intro p h
    simp [proto_progress_to_native, h]
  · intro p h
    have h1 := h "downloaded_changes" (by simp [knownMediaSyncKinds])
    have h2 := h "downloaded_files" (by simp [knownMediaSyncKinds])
    have h3 := h "uploaded" (by simp [knownMediaSyncKinds])
    have h4 := h "removed_files" (by simp [knownMediaSyncKinds])
    by_cases houter : p.value = some "media_sync" <;>
      simp [proto_progress_to_native, houter, h1, h2, h3, h4]
  · intro tag h
    simp [av_tag_to_native, h]
  · intro node h
    simp [proto_replacement_list_to_native, h]
  · intro idx req h1 h2
    simp [template_req_to_legacy, h1, h2]

/-- Witness for the amended C1 at concrete unknown discriminants. -/
theorem c1_witness :
    proto_exception_to_native pbErrUnknown = none
  ∧ proto_replacement_list_to_native
      [⟨some "future_node_kind", "t", ⟨"f", "c", []⟩⟩]
      = [Sum.inr ⟨"f", "c", []⟩]
  ∧ template_req_to_legacy 0 ⟨some "future_req_kind", ⟨[2]⟩, ⟨[3]⟩⟩
      = (0, "none", []) :=
  ⟨c1_amended_unknown_discriminants.1 pbErrUnknown (by decide),
   c1_amended_unknown_discriminants.2.2.2.2.1 _ (by decide),
   c1_amended_unknown_discriminants.2.2.2.2.2 0 _ (by decide) (by decide)⟩

/-- An engine stub whose response envelope's discriminant is always
`sched_timing_today`, whatever command was sent. -/
def wrongVariantBackend : EngineBackend := fun _ _ =>
  ⟨some "sched_timing_today", pbBackendError0,
    ⟨[]⟩, ⟨0, 0⟩, ⟨[], []⟩, 0, "", ⟨"", []⟩, "", ""⟩

/-- Counterexample to C2 as stated: a `template_requirements` command whose
response envelope's discriminant is `sched_timing_today` (neither the
command sent nor the error variant) does not abort; the dispatcher returns
the output and the command method extracts a success payload (the default,
here the empty requirement list) from the non-matching variant. -/
theorem c2_counterexample :
    (wrongVariantBackend
        (PbBackendInput.template_requirements ⟨[], []⟩) false).value
      = some "sched_timing_today"
  ∧ (RustBackend.template_requirements wrongVariantBackend [] []).2
      = some (Except.ok []) :=
  ⟨rfl, rfl⟩

/-- Claim C2 (amended): the dispatcher checks the response discriminant only
against the error variant; on any non-error discriminant — whether or not it
matches the command that was sent — it returns the decoded output without
any fatal violation, and the command method extracts its payload field from
it (the protobuf default when the set variant differs). -/
theorem c2_amended_no_discriminant_check (backend : EngineBackend)
    (fronts : List String) (fmap : List (String × Nat))
    (h : (backend (PbBackendInput.template_requirements ⟨fronts, fmap⟩)
        false).value ≠ some "error") :
    (RustBackend.template_requirements backend fronts fmap).2
      = some (Except.ok (proto_template_reqs_to_legacy
          (backend (PbBackendInput.template_requirements ⟨fronts, fmap⟩)
            false).template_requirements.requirements)) := by
  simp [RustBackend.template_requirements, run_command, h, Except.map]

/-- Witness for the amended C2: applied to the engine stub answering with a
mismatched (non-error) discriminant. -/
theorem c2_witness :
    (RustBackend.template_requirements wrongVariantBackend [] []).2
      = some (Except.ok (proto_template_reqs_to_legacy
          (wrongVariantBackend
            (PbBackendInput.template_requirements ⟨[], []⟩)
            false).template_requirements.requirements)) :=
  c2_amended_no_discriminant_check wrongVariantBackend [] [] (by decide)

/-- A wire `any`-requirement carrying a duplicated ordinal. -/
def pbReqDupAny : PbTemplateRequirement := ⟨some "any", ⟨[1, 1]⟩, ⟨[]⟩⟩

/-- Counterexample to C4 as stated: an `any`-kind requirement whose wire
ordinals are `[1, 1]` decodes to the ordinal list `[1, 1]`, which is not
duplicate-free. -/
theorem c4_counterexample :
    proto_template_reqs_to_legacy [pbReqDupAny] = [(0, "any", [1, 1])]
  ∧ ¬ ((proto_template_reqs_to_legacy [pbReqDupAny]).get
        ⟨0, by decide⟩).2.2.Nodup := by
  constructor
  · decide
  · decide

/-- Claim C4 (amended): every decoded requirement's ordinal list is sorted
ascending and every `none`-kind requirement carries an empty ordinal list
even if the wire form carried ordinals; for the `any` / `all` kinds the
decoded list is a permutation of the wire-carried ordinals (so multiplicity
is preserved: it is duplicate-free exactly when the wire list is). -/
theorem c4_amended_sorted_perm_none_empty :
    (∀ (reqs : List PbTemplateRequirement) (r : LegacyReq),
      r ∈ proto_template_reqs_to_legacy reqs →
      List.Sorted (· ≤ ·) r.2.2 ∧ (r.2.1 = "none" → r.2.2 = []))
  ∧ (∀ (idx : Nat) (req : PbTemplateRequirement),
      (req.value = some "any" →
        template_req_to_legacy idx req = (idx, "any", pysorted req.any.ords)
        ∧ (pysorted req.any.ords).Perm req.any.ords)
    ∧ (req.value = some "all" →
        template_req_to_legacy idx req = (idx, "all", pysorted req.all.ords)
        ∧ (pysorted req.all.ords).Perm req.all.ords)
    ∧ (req.value ≠ some "any" → req.value ≠ some "all" →
        template_req_to_legacy idx req = (idx, "none", []))) := by
  constructor
  · intro reqs r hr
    rw [proto_template_reqs_to_legacy, List.mem_map] at hr
    obtain ⟨p, _, hp⟩ := hr
    subst hp
    unfold template_req_to_legacy
    split_ifs <;>
      simp [pysorted, List.sorted_insertionSort]
  · intro idx req
    refine ⟨?_, ?_, ?_⟩
    · intro h
      exact ⟨by simp [template_req_to_legacy, h],
        List.perm_insertionSort _ _⟩
    · intro h
      refine ⟨?_, List.perm_insertionSort _ _⟩
      have hne : req.value ≠ some "any" := by simp [h]
      simp [template_req_to_legacy, h, hne]
    · intro h1 h2
      simp [template_req_to_legacy, h1, h2]

/-- Witness for the amended C4: the duplicated-`any` requirement decodes
sorted with multiplicity preserved, and a `none` requirement that carries
wire ordinals decodes to the empty list. -/
theorem c4_witness :
    (List.Sorted (· ≤ ·)
        ((0, "any", ([1, 1] : List Nat)) : LegacyReq).2.2
      ∧ (((0, "any", ([1, 1] : List Nat)) : LegacyReq).2.1 = "none" →
        ((0, "any", ([1, 1] : List Nat)) : LegacyReq).2.2 = []))
  ∧ template_req_to_legacy 7 ⟨some "none", ⟨[5, 2]⟩, ⟨[9]⟩⟩
      = (7, "none", []) :=
  ⟨c4_amended_sorted_perm_none_empty.1 [pbReqDupAny]
      (0, "any", [1, 1]) (by decide),
   (c4_amended_sorted_perm_none_empty.2 7
      ⟨some "none", ⟨[5, 2]⟩, ⟨[9]⟩⟩).2.2 (by decide) (by decide)⟩
